import Mathlib

/-!
Verification of the temporal compositing pipeline embedded in the TDC_use
notebooks: quality masking, band-index computation, cross-sensor merge,
seasonal median aggregation and year-over-year differencing.

Cell values are modelled as `Option ℚ`: `none` is the "no observation"
marker (the NaN produced by `xarray.DataArray.where` and skipped by
`median(skipna=True)`), `some x` an actual observation.
-/

namespace TDC

/-- One cell of a raster: `none` = "no observation" (NaN), `some x` = value. -/
abbrev Val := Option ℚ

/-- A 2-D raster, viewed pixelwise. -/
abbrev Grid (Pix : Type) := Pix → Val

/-- An acquisition timestamp, reduced to the fields the notebooks group on:
`time.year` and `time.month` (the season accessor is derived from the month). -/
structure Time where
  year : ℤ
  month : ℕ
deriving DecidableEq, Repr

/-- One pixel's raster time series: the list of (timestamp, cell) pairs along
the `time` dimension. -/
abbrev TSeries := List (Time × Val)

/-- `time.season == 'JJA'`: the month falls in June–July–August. -/
def isJJA (m : ℕ) : Bool := m == 6 || m == 7 || m == 8

/-- The values that survive `skipna=True`: drop every "no observation" cell. -/
def obsVals (l : List Val) : List ℚ := l.filterMap id

/-- Pixelwise median of the valid observations, as `numpy`/`xarray` compute
it: sort, take the middle element (odd count) or the mean of the two middle
elements (even count); an empty group yields "no observation". -/
def median (l : List ℚ) : Val :=
  let s := l.insertionSort (· ≤ ·)
  let n := s.length
  if n = 0 then none
  else if n % 2 = 1 then some (s.getD (n / 2) 0)
  else some ((s.getD (n / 2 - 1) 0 + s.getD (n / 2) 0) / 2)

/-- The distinct years appearing in a series' time coordinate, ascending:
the group keys of `groupby('time.year')`. -/
def yearsOf (s : TSeries) : List ℤ :=
  ((s.map fun tv => tv.1.year).dedup).insertionSort (· ≤ ·)

/-- The valid observations of a series falling in a given year: the inputs to
that year group's skipna median. -/
def yearVals (s : TSeries) (y : ℤ) : List ℚ :=
  obsVals ((s.filter fun tv => tv.1.year = y).map Prod.snd)

/-- `groupby('time.year').median(dim='time', skipna=True)` (part_000 lines 141
and 334): one (year, median) composite per year present in the time
coordinate, years ascending. -/
def groupByYearMedian (s : TSeries) : List (ℤ × Val) :=
  (yearsOf s).map fun y => (y, median (yearVals s y))

/-- `da.where(da['time.season'] == 'JJA')` (part_000 line 334): cells outside
the season window become "no observation"; the time axis is kept. -/
def whereJJA (s : TSeries) : TSeries :=
  s.map fun tv => (tv.1, if isJJA tv.1.month then tv.2 else none)

/-- The SeasonalAggregator of the spec as realised in part_000: restrict to
the JJA season window, then take per-year skipna medians. -/
def aggregate (s : TSeries) : List (ℤ × Val) :=
  groupByYearMedian (whereJJA s)

/-- NaN-propagating cell subtraction: float `a - b` is NaN when either
operand is NaN. -/
def vsub : Val → Val → Val
  | some a, some b => some (a - b)
  | _, _ => none

/-- NaN-propagating cell addition. -/
def vadd : Val → Val → Val
  | some a, some b => some (a + b)
  | _, _ => none

/-- NaN-propagating halving (`/ 2` on a float, NaN stays NaN). -/
def vhalf : Val → Val
  | some a => some (a / 2)
  | none => none

/-- `mpspy[i,:,:] - mpspy[j,:,:]` (part_000 lines 152-153): pixelwise
subtraction of two composites. -/
def gridSub {Pix : Type} (a b : Grid Pix) : Grid Pix :=
  fun p => vsub (a p) (b p)

/-- `((mpspy[i,:,:] + mpspy[j,:,:]) / 2) - mpspy[k,:,:]` (part_000 lines 154
and 347-351): pixelwise average of two composites minus a baseline. -/
def gridAvgDiff {Pix : Type} (a b c : Grid Pix) : Grid Pix :=
  fun p => vsub (vhalf (vadd (a p) (b p))) (c p)

/-- A raster time series over a pixel grid `Pix`: a time coordinate plus the
cell value at each (timestamp, pixel). Cells at timestamps outside `times`
are irrelevant; the operations below consult `times` before reading them. -/
structure Series (Pix : Type) where
  times : List ℤ
  val : ℤ → Pix → Val

/-- `primary.combine_first(secondary)` (part_000 line 137): the result's time
coordinate is the sorted union of both inputs'; at each timestamp the result
takes the primary's cell if the timestamp is on the primary's axis and the
cell is an observation, otherwise falls back to the secondary's cell at that
exact timestamp when available, otherwise "no observation". -/
def combine_first {Pix : Type} (A B : Series Pix) : Series Pix where
  times := ((A.times ++ B.times).dedup).insertionSort (· ≤ ·)
  val := fun t p =>
    if t ∈ A.times then
      match A.val t p with
      | some v => some v
      | none => if t ∈ B.times then B.val t p else none
    else if t ∈ B.times then B.val t p else none

/-- Python index normalization: a negative index counts from the end. -/
def pyNorm (n : ℕ) (i : ℤ) : ℤ := if i < 0 then i + n else i

/-- Python/numpy integer indexing along the leading axis, as in
`mpspy[i,:,:]`: a negative index counts from the end; an index outside
`[-len, len)` raises `IndexError`. -/
def pyIndex {α : Type} (l : List α) (i : ℤ) : Except String α :=
  if 0 ≤ pyNorm l.length i then
    match l.get? (pyNorm l.length i).toNat with
    | some a => Except.ok a
    | none => Except.error "IndexError"
  else Except.error "IndexError"

/-- TemporalDiff's subtraction form (part_000 lines 152-153) with explicit
year indices: `mpspy[other,:,:] - mpspy[baseline,:,:]`. -/
def diffFromBaseline {Pix : Type} (comps : List (Grid Pix)) (other baseline : ℤ) :
    Except String (Grid Pix) := do
  let a ← pyIndex comps other
  let b ← pyIndex comps baseline
  return gridSub a b

/-- A quality-flag value: a categorical label (such as `valid` or `clear`)
or a boolean flag, mirroring the `flags` dict of part_000 lines 98-104. -/
inductive FlagVal where
  | cat : String → FlagVal
  | flag : Bool → FlagVal
deriving DecidableEq, Repr

/-- Modelled from the spec: `datacube.utils.masking.make_mask` (called at
part_000 lines 106-107) is external library code not present in the
repository. Per §4.1 the pixel-timestamp is valid only if all predicates of
the set hold against the corresponding flag fields (pure conjunction). -/
def applyMask (preds : List (String × FlagVal)) (flags : String → FlagVal) : Bool :=
  preds.all fun kv => decide (flags kv.1 = kv.2)

/-- Point update of a flag assignment: flag `k` now reads `v`. -/
def setFlag (flags : String → FlagVal) (k : String) (v : FlagVal) : String → FlagVal :=
  fun x => if x = k then v else flags x

/-- Modelled from the spec: `utils.bandindices.optical` (called at part_000
lines 114-115) is repository code not present under src. Per §4.2 NDVI is
the normalized difference `(nir - red) / (nir + red)`; a zero denominator
(in particular both bands zero) yields "no observation", and a missing band
value propagates. -/
def ndviCell : Val → Val → Val
  | some r, some n => if n + r = 0 then none else some ((n - r) / (n + r))
  | _, _ => none

/-- A dataset at one pixel: variable name to time series of cells. -/
abbrev Dataset := List (String × List Val)

/-- Modelled from the spec: `utils.bandindices.optical(ds, index=["NDVI",
"kNDVI"], inplace=True, drop=False, ...)` (part_000 lines 114-115) is
repository code not present under src. The call site shows its in-place
semantics: the result is not captured, yet `s2.NDVI` is read afterwards, so
the input dataset itself is extended with the computed index variables.
Per §4.2 kNDVI applies a nonlinear kernel to the normalized difference; the
kernel is kept as a parameter (its transcendental formula has no exact
rational embedding and no claim depends on it). -/
def optical (kernel : ℚ → ℚ) (ds : Dataset) : Dataset :=
  let red := (ds.lookup "red").getD []
  let nir := (ds.lookup "nir").getD []
  ds ++ [("NDVI", List.zipWith ndviCell red nir),
         ("kNDVI", List.zipWith (fun r n => Option.map kernel (ndviCell r n)) red nir)]

/-- `s2_l8_ind.where((time.season == 'JJA') & (v >= 0) & (v <= 1))`
(part_000 line 138): a cell survives only if it is an observation, its
timestamp lies in the JJA window and its value lies in [0, 1]; everything
else becomes "no observation" (a NaN cell fails the comparisons and stays
NaN). -/
def rangeSeasonWhere (s : TSeries) : TSeries :=
  s.map fun tv => (tv.1,
    match tv.2 with
    | some x => if isJJA tv.1.month ∧ 0 ≤ x ∧ x ≤ 1 then some x else none
    | none => none)

/-- The optical pipeline's seasonal composites (part_000 lines 138-141):
range- and season-filter the merged index series, then per-year medians. -/
def mpspyOptical (s : TSeries) : List (ℤ × Val) :=
  groupByYearMedian (rangeSeasonWhere s)

/-- `numpy`-default linear-interpolation quantile of a list: with the values
sorted and `h = q * (n - 1)`, interpolate between positions `⌊h⌋` and
`⌊h⌋ + 1`. Mirrors `DataArray.quantile` on an all-valid series. -/
def quantile (q : ℚ) (l : List ℚ) : ℚ :=
  let s := l.insertionSort (· ≤ ·)
  if s.length = 0 then 0
  else
    let h : ℚ := q * ((s.length : ℚ) - 1)
    let i := h.floor.toNat
    let lo := s.getD i 0
    lo + (h - (h.floor : ℚ)) * (s.getD (i + 1) lo - lo)

/-- `VVVH.where((VH != nodata) & (VH >= VH.quantile(0.05)) & (VH <=
VH.quantile(0.95)))` (part_000 lines 322-323), per pixel along time: a VVVH
cell is kept exactly when the same orbit's VH value at that timestamp is not
the nodata sentinel and lies within the 5th–95th quantile range of the VH
series; no condition reads the VVVH values. -/
def vvvhFiltered (nodata : ℚ) (VH : List ℚ) (VVVH : List Val) : List Val :=
  let q05 := quantile (1 / 20) VH
  let q95 := quantile (19 / 20) VH
  List.zipWith (fun w h => if h ≠ nodata ∧ q05 ≤ h ∧ h ≤ q95 then w else none) VVVH VH

/-- `xr.where(ds.VH > nodata, True, False).sum(dim="time")` (part_001 lines
70-72 and part_002 lines 60-62): per pixel, the number of timestamps whose
VH value is strictly greater than the nodata sentinel. -/
def obsCount (nodata : ℚ) (l : List ℚ) : ℕ :=
  (l.map fun v => if nodata < v then (1 : ℕ) else 0).sum

lemma vsub_none_left (b : Val) : vsub none b = none := by cases b <;> rfl

lemma vsub_none_right (a : Val) : vsub a none = none := by cases a <;> rfl

lemma vadd_none_left (b : Val) : vadd none b = none := by cases b <;> rfl

lemma vadd_none_right (a : Val) : vadd a none = none := by cases a <;> rfl

lemma get?_zipWith {α β γ : Type} (f : α → β → γ) (l₁ : List α) :
    ∀ (l₂ : List β) (i : ℕ),
      (List.zipWith f l₁ l₂).get? i =
        (l₁.get? i).bind fun a => (l₂.get? i).map fun b => f a b := by
  induction l₁ with
  | nil => intro l₂ i; simp
  | cons a l₁ ih =>
    intro l₂ i
    cases l₂ with
    | nil => simp
    | cons b l₂ =>
      cases i with
      | zero => simp
      | succ i => simpa using ih l₂ i

lemma set_get?_self {α : Type} : ∀ (l : List α) (i : ℕ) (a : α),
    l.get? i = some a → l.set i a = l := by
  intro l
  induction l with
  | nil => intro i a h; simp at h
  | cons x xs ih =>
    intro i a h
    cases i with
    | zero =>
      rw [List.get?_cons_zero] at h
      rw [Option.some_inj] at h
      rw [List.set_cons_zero, h]
    | succ i =>
      rw [List.get?_cons_succ] at h
      rw [List.set_cons_succ, ih i a h]

/-- C2: for every pixel of a TemporalDiff result, in both the subtraction
form `composite_A - composite_B` and the averaging form
`(composite_A + composite_B) / 2 - composite_C`, a "no observation" in any
operand composite at that pixel makes the result "no observation" there —
never zero-filled and never computed from the remaining operands. -/
theorem temporalDiff_nodata_propagation {Pix : Type} (a b c : Grid Pix) (p : Pix) :
    ((a p = none ∨ b p = none) → gridSub a b p = none) ∧
    ((a p = none ∨ b p = none ∨ c p = none) → gridAvgDiff a b c p = none) := by
  constructor
  · rintro (h | h) <;> simp only [gridSub, h, vsub_none_left, vsub_none_right]
  · rintro (h | h | h) <;>
      simp only [gridAvgDiff, h, vadd_none_left, vadd_none_right, vhalf,
        vsub_none_left, vsub_none_right]

/-- Exercises `temporalDiff_nodata_propagation` on concrete one-pixel
composites with a missing operand. -/
theorem temporalDiff_nodata_propagation_witness :
    ((fun _ => none : Grid Unit) () = none ∨ (fun _ => some 3 : Grid Unit) () = none) ∧
    gridSub (fun _ => none) (fun _ => some 3) () = none ∧
    gridAvgDiff (fun _ => some 2) (fun _ => none) (fun _ => some 1) () = none :=
  ⟨Or.inl rfl,
   (temporalDiff_nodata_propagation (fun _ => none) (fun _ => some 3)
     (fun _ => some 1) ()).1 (Or.inl rfl),
   (temporalDiff_nodata_propagation (fun _ => some 2) (fun _ => none)
     (fun _ => some 1) ()).2 (Or.inr (Or.inl rfl))⟩

/-- C6: the NDVI of a pixel-timestamp whose two input bands are both zero is
the explicit "no observation" marker — not an error, not a finite value —
and it contributes nothing to any downstream skipna median (it is dropped
from the values a median group collects). -/
theorem ndvi_zero_bands_no_observation (r n : ℚ) (hr : r = 0) (hn : n = 0) :
    ndviCell (some r) (some n) = none ∧
    ∀ l : List Val, obsVals (ndviCell (some r) (some n) :: l) = obsVals l := by
  subst hr; subst hn
  have h : ndviCell (some (0 : ℚ)) (some (0 : ℚ)) = none := by
    norm_num [ndviCell]
  exact ⟨h, fun l => by simp [obsVals, h]⟩

/-- Exercises `ndvi_zero_bands_no_observation` at bands (0, 0). -/
theorem ndvi_zero_bands_no_observation_witness :
    (0 : ℚ) = 0 ∧
    (ndviCell (some 0) (some 0) = none ∧
      ∀ l : List Val, obsVals (ndviCell (some 0) (some 0) :: l) = obsVals l) :=
  ⟨rfl, ndvi_zero_bands_no_observation 0 0 rfl rfl⟩

lemma pyIndex_out_of_range {α : Type} (l : List α) (i : ℤ)
    (h : (l.length : ℤ) ≤ i ∨ i < -(l.length : ℤ)) :
    pyIndex l i = Except.error "IndexError" := by
  rcases h with h | h
  · have h0 : (0 : ℤ) ≤ i := by omega
    have hnorm : pyNorm l.length i = i := by
      unfold pyNorm; rw [if_neg (by omega : ¬ i < 0)]
    have hnone : l.get? i.toNat = none := List.get?_len_le (by omega)
    unfold pyIndex
    rw [hnorm, if_pos h0, hnone]
  · have hlt : i < 0 := by omega
    have hnorm : pyNorm l.length i = i + l.length := by
      unfold pyNorm; rw [if_pos hlt]
    have hneg : ¬ (0 : ℤ) ≤ i + l.length := by omega
    unfold pyIndex
    rw [hnorm, if_neg hneg]

lemma pyIndex_ok_or_err {α : Type} (l : List α) (i : ℤ) :
    (∃ a, pyIndex l i = Except.ok a) ∨ pyIndex l i = Except.error "IndexError" := by
  unfold pyIndex
  by_cases h : (0 : ℤ) ≤ pyNorm l.length i
  · rw [if_pos h]
    cases hg : l.get? (pyNorm l.length i).toNat with
    | none => exact Or.inr rfl
    | some a => exact Or.inl ⟨a, rfl⟩
  · rw [if_neg h]
    exact Or.inr rfl

/-- C7: differencing composites against a baseline year index that is out of
range for the composites produced by the aggregator fails with an
`IndexError`; it does not return a raster and does not wrap the index. -/
theorem diffFromBaseline_out_of_range_error {Pix : Type} (comps : List (Grid Pix))
    (other baseline : ℤ)
    (h : (comps.length : ℤ) ≤ baseline ∨ baseline < -(comps.length : ℤ)) :
    diffFromBaseline comps other baseline = Except.error "IndexError" := by
  unfold diffFromBaseline
  rcases pyIndex_ok_or_err comps other with ⟨a, ha⟩ | ha <;> rw [ha]
  · show (Except.ok a >>= fun a => pyIndex comps baseline >>= fun b =>
      pure (gridSub a b)) = Except.error "IndexError"
    rw [pyIndex_out_of_range comps baseline h]
    rfl
  · rfl

/-- Exercises `diffFromBaseline_out_of_range_error` on a three-composite
stack with baseline index 5. -/
theorem diffFromBaseline_out_of_range_error_witness :
    (((3 : ℤ) ≤ 5 ∨ (5 : ℤ) < -3) ∧
      diffFromBaseline
        ([fun _ => some 1, fun _ => some 2, fun _ => some 3] : List (Grid Unit))
        0 5 = Except.error "IndexError") :=
  ⟨Or.inl (by decide),
   diffFromBaseline_out_of_range_error _ 0 5 (Or.inl (by decide))⟩

/-- C10: the per-pixel observation-count notebooks count a timestamp exactly
when its VH value is strictly greater than the nodata sentinel; a value equal
to or below the sentinel never increases the count, wherever it occurs in
the series. -/
theorem obsCount_strictly_greater_only (nd : ℚ) (l₁ l₂ : List ℚ) (v : ℚ) :
    (nd < v → obsCount nd (l₁ ++ v :: l₂) = obsCount nd (l₁ ++ l₂) + 1) ∧
    (v ≤ nd → obsCount nd (l₁ ++ v :: l₂) = obsCount nd (l₁ ++ l₂)) := by
  constructor
  · intro h
    simp [obsCount, if_pos h]
    omega
  · intro h
    have : ¬ nd < v := not_lt.mpr h
    simp [obsCount, if_neg this]

/-- Exercises `obsCount_strictly_greater_only`: with sentinel 0, the value 3
is counted and the values 0 and -2 are not. -/
theorem obsCount_strictly_greater_only_witness :
    ((0 : ℚ) < 3 → obsCount 0 ([1] ++ 3 :: [5]) = obsCount 0 ([1] ++ [5]) + 1) ∧
    ((0 : ℚ) ≤ 0 → obsCount 0 ([1] ++ 0 :: [5]) = obsCount 0 ([1] ++ [5])) ∧
    ((-2 : ℚ) ≤ 0 → obsCount 0 ([1] ++ (-2) :: [5]) = obsCount 0 ([1] ++ [5])) :=
  ⟨(obsCount_strictly_greater_only 0 [1] [5] 3).1,
   (obsCount_strictly_greater_only 0 [1] [5] 0).2,
   (obsCount_strictly_greater_only 0 [1] [5] (-2)).2⟩

/-- C4: for every flag assignment and predicate set, the quality mask marks
a pixel-timestamp valid exactly when every predicate of the set holds on its
flags, and changing any single required flag away from its required value
makes that pixel-timestamp invalid. -/
theorem applyMask_iff_all_predicates (preds : List (String × FlagVal))
    (flags : String → FlagVal) :
    (applyMask preds flags = true ↔ ∀ kv ∈ preds, flags kv.1 = kv.2) ∧
    (∀ (k : String) (v vnew : FlagVal), (k, v) ∈ preds → vnew ≠ v →
      applyMask preds (setFlag flags k vnew) = false) := by
  constructor
  · simp [applyMask]
  · intro k v vnew hmem hne
    rw [applyMask, List.all_eq_false]
    refine ⟨(k, v), hmem, ?_⟩
    simp only [setFlag, if_pos rfl]
    simpa using hne

/-- Exercises `applyMask_iff_all_predicates` on the part_000 predicate set
shape: a valid assignment, then the snow flag flipped to true. -/
theorem applyMask_iff_all_predicates_witness :
    (applyMask
        [("valid_data", FlagVal.cat "valid"), ("snow_flag", FlagVal.flag false)]
        (fun k => if k = "valid_data" then FlagVal.cat "valid" else FlagVal.flag false)
      = true ↔
      ∀ kv ∈ [("valid_data", FlagVal.cat "valid"), ("snow_flag", FlagVal.flag false)],
        (fun k => if k = "valid_data" then FlagVal.cat "valid" else FlagVal.flag false)
          kv.1 = kv.2) ∧
    (("snow_flag", FlagVal.flag false) ∈
        [("valid_data", FlagVal.cat "valid"), ("snow_flag", FlagVal.flag false)] ∧
      FlagVal.flag true ≠ FlagVal.flag false ∧
      applyMask
        [("valid_data", FlagVal.cat "valid"), ("snow_flag", FlagVal.flag false)]
        (setFlag
          (fun k => if k = "valid_data" then FlagVal.cat "valid" else FlagVal.flag false)
          "snow_flag" (FlagVal.flag true))
        = false) :=
  ⟨(applyMask_iff_all_predicates _ _).1,
   by decide, by decide,
   (applyMask_iff_all_predicates _
     (fun k => if k = "valid_data" then FlagVal.cat "valid" else FlagVal.flag false)).2
     "snow_flag" (FlagVal.flag false) (FlagVal.flag true) (by decide) (by decide)⟩

/-- C5 counterexample: the index-computation stage called as in part_000
line 114 (`bandindices.optical(s2, ..., inplace=True, drop=False)`) does not
leave its input dataset unchanged — under the call's in-place semantics the
dataset the caller holds afterwards is `optical`'s result, which differs
from the dataset passed in (it gained the NDVI and kNDVI variables, as the
notebook's later read of `s2.NDVI` requires). -/
theorem optical_inplace_mutates_cex :
    optical (fun x => x) [("red", [some 1]), ("nir", [some 2])]
      ≠ [("red", [some 1]), ("nir", [some 2])] := by
  intro h
  have hlen := congrArg List.length h
  simp [optical] at hlen

/-- C5 amended: every stage except index computation returns a new series
leaving its input unchanged; the index-computation stage, called with
`inplace=True`, extends its input dataset in place with the computed index
variables — the values of every variable already present are unchanged, and
the NDVI and kNDVI variables are present afterwards. -/
theorem optical_preserves_existing_vars (kernel : ℚ → ℚ) (ds : Dataset)
    (name : String) (hname : (ds.lookup name).isSome = true) :
    (optical kernel ds).lookup name = ds.lookup name ∧
    ((optical kernel ds).lookup "NDVI").isSome = true ∧
    ((optical kernel ds).lookup "kNDVI").isSome = true := by
  refine ⟨?_, ?_, ?_⟩
  · show List.lookup name (ds ++ _) = ds.lookup name
    rw [List.lookup_append]
    cases hv : ds.lookup name with
    | none => rw [hv] at hname; simp at hname
    | some v => rfl
  · show (List.lookup "NDVI" (ds ++ _)).isSome = true
    rw [List.lookup_append]
    cases hv : ds.lookup "NDVI" with
    | none => rfl
    | some v => rfl
  · show (List.lookup "kNDVI" (ds ++ _)).isSome = true
    rw [List.lookup_append]
    cases hv : ds.lookup "kNDVI" with
    | none => rfl
    | some v => rfl

/-- Exercises `optical_preserves_existing_vars` on a two-band dataset. -/
theorem optical_preserves_existing_vars_witness :
    ((([("red", [some 1]), ("nir", [some 2])] : Dataset).lookup "red").isSome = true) ∧
    ((optical (fun x => x) [("red", [some 1]), ("nir", [some 2])]).lookup "red"
        = ([("red", [some 1]), ("nir", [some 2])] : Dataset).lookup "red" ∧
      ((optical (fun x => x) [("red", [some 1]), ("nir", [some 2])]).lookup "NDVI").isSome
        = true ∧
      ((optical (fun x => x) [("red", [some 1]), ("nir", [some 2])]).lookup "kNDVI").isSome
        = true) :=
  ⟨rfl, optical_preserves_existing_vars (fun x => x) _ "red" rfl⟩

/-- A primary series whose single cell is "no observation" at timestamp 0. -/
def cexA : Series Unit := { times := [0], val := fun _ _ => none }

/-- A secondary series observing value 5 at the shared timestamp 0. -/
def cexB : Series Unit := { times := [0], val := fun _ _ => some 5 }

/-- C1 counterexample: timestamp 0 is present in both inputs, yet the merged
value is the secondary's (5), not the primary's ("no observation"):
`combine_first` fills the primary's missing cells from the secondary at
shared timestamps, so at a timestamp present in both the merged value does
not always equal the primary's value. -/
theorem combine_first_shared_timestamp_cex :
    (0 ∈ cexA.times ∧ 0 ∈ cexB.times) ∧
    (combine_first cexA cexB).val 0 () = some 5 ∧
    (combine_first cexA cexB).val 0 () ≠ cexA.val 0 () := by
  refine ⟨⟨?_, ?_⟩, ?_, ?_⟩ <;> decide

/-- C1 amended: at a timestamp present only in the secondary, the merged
value is the secondary's; at a timestamp present in the primary, the merged
value is the primary's whenever that is an observation, and falls back to
the secondary's value at that exact timestamp when the primary holds "no
observation" there. -/
theorem combine_first_primary_precedence {Pix : Type} (A B : Series Pix)
    (t : ℤ) (p : Pix) :
    (t ∈ B.times → t ∉ A.times → (combine_first A B).val t p = B.val t p) ∧
    (t ∈ A.times → ∀ v : ℚ, A.val t p = some v →
      (combine_first A B).val t p = some v) ∧
    (t ∈ A.times → t ∈ B.times → A.val t p = none →
      (combine_first A B).val t p = B.val t p) := by
  refine ⟨?_, ?_, ?_⟩
  · intro hB hA
    show (if t ∈ A.times then _ else _) = B.val t p
    rw [if_neg hA, if_pos hB]
  · intro hA v hv
    show (if t ∈ A.times then _ else _) = some v
    rw [if_pos hA, hv]
  · intro hA hB hv
    show (if t ∈ A.times then _ else _) = B.val t p
    rw [if_pos hA, hv]
    exact if_pos hB

/-- Exercises `combine_first_primary_precedence` at the shared timestamp of
`cexA`/`cexB` where the primary holds "no observation". -/
theorem combine_first_primary_precedence_witness :
    (0 ∈ cexA.times ∧ 0 ∈ cexB.times ∧ cexA.val 0 () = none) ∧
    (combine_first cexA cexB).val 0 () = cexB.val 0 () :=
  ⟨⟨by decide, by decide, rfl⟩,
   (combine_first_primary_precedence cexA cexB 0 ()).2.2 (by decide) (by decide) rfl⟩

/-- C8: in the optical pipeline, before aggregation, a pixel-timestamp whose
merged index value lies strictly below 0 or strictly above 1 becomes
"no observation" — even though it is an actual observation (it survived the
quality mask) — and the seasonal medians are exactly those obtained with
that cell already marked "no observation". -/
theorem range_filter_excludes_out_of_range (s : TSeries) (i : ℕ) (t : Time)
    (x : ℚ) (hget : s.get? i = some (t, some x)) (hx : x < 0 ∨ 1 < x) :
    (rangeSeasonWhere s).get? i = some (t, none) ∧
    mpspyOptical s = mpspyOptical (s.set i (t, none)) := by
  have hcond : ¬ (isJJA t.month = true ∧ 0 ≤ x ∧ x ≤ 1) := by
    rintro ⟨-, h0, h1⟩
    rcases hx with hx | hx <;> linarith
  have hcell : (rangeSeasonWhere s).get? i = some (t, none) := by
    unfold rangeSeasonWhere
    rw [List.get?_map, hget]
    simp [hcond]
  have hmapset : rangeSeasonWhere (s.set i (t, none)) = rangeSeasonWhere s := by
    show (s.set i (t, none)).map _ = rangeSeasonWhere s
    rw [List.map_set]
    exact set_get?_self _ i (t, none) hcell
  exact ⟨hcell, by unfold mpspyOptical; rw [hmapset]⟩

/-- Exercises `range_filter_excludes_out_of_range` on an in-season
observation with value 2. -/
theorem range_filter_excludes_out_of_range_witness :
    (([({ year := 2018, month := 7 }, some 2)] : TSeries).get? 0
        = some ({ year := 2018, month := 7 }, some 2) ∧
      ((2 : ℚ) < 0 ∨ (1 : ℚ) < 2)) ∧
    ((rangeSeasonWhere [({ year := 2018, month := 7 }, some 2)]).get? 0
        = some ({ year := 2018, month := 7 }, none) ∧
      mpspyOptical [({ year := 2018, month := 7 }, some 2)]
        = mpspyOptical (([({ year := 2018, month := 7 }, some 2)] : TSeries).set 0
            ({ year := 2018, month := 7 }, none))) :=
  ⟨⟨rfl, Or.inr one_lt_two⟩,
   range_filter_excludes_out_of_range _ 0 _ 2 rfl (Or.inr one_lt_two)⟩

/-- C9: a VVVH ratio cell survives the SAR nodata/outlier filter exactly
when the same orbit's VH value at that timestamp differs from the nodata
sentinel and lies between the 5th and 95th quantile of the VH series
(inclusive); the filter applies no condition to the VVVH values themselves —
whatever cell the VVVH series holds at a passing timestamp is passed
through unchanged, and at a failing timestamp is replaced by
"no observation". -/
theorem vvvh_mask_depends_only_on_vh (nd : ℚ) (VH : List ℚ) (i : ℕ) (h : ℚ)
    (hVH : VH.get? i = some h) (VVVH : List Val) (w : Val)
    (hW : VVVH.get? i = some w) :
    ((vvvhFiltered nd VH VVVH).get? i =
      some (if h ≠ nd ∧ quantile (1 / 20) VH ≤ h ∧ h ≤ quantile (19 / 20) VH
            then w else none)) ∧
    (∀ r : ℚ, w = some r →
      ((vvvhFiltered nd VH VVVH).get? i = some (some r) ↔
        (h ≠ nd ∧ quantile (1 / 20) VH ≤ h ∧ h ≤ quantile (19 / 20) VH))) := by
  have hmain : (vvvhFiltered nd VH VVVH).get? i =
      some (if h ≠ nd ∧ quantile (1 / 20) VH ≤ h ∧ h ≤ quantile (19 / 20) VH
            then w else none) := by
    unfold vvvhFiltered
    rw [get?_zipWith, hW, hVH]
    rfl
  refine ⟨hmain, ?_⟩
  intro r hr
  subst hr
  by_cases hc : h ≠ nd ∧ quantile (1 / 20) VH ≤ h ∧ h ≤ quantile (19 / 20) VH
  · rw [hmain, if_pos hc]
    exact iff_of_true rfl hc
  · rw [hmain, if_neg hc]
    refine iff_of_false ?_ hc
    simp

/-- Exercises `vvvh_mask_depends_only_on_vh` at index 0 of a concrete orbit
stack. -/
theorem vvvh_mask_depends_only_on_vh_witness :
    (([3, 1, 2] : List ℚ).get? 0 = some 3 ∧
      ([some 7, none, some 4] : List Val).get? 0 = some (some 7)) ∧
    (((vvvhFiltered 0 [3, 1, 2] [some 7, none, some 4]).get? 0 =
        some (if (3 : ℚ) ≠ 0 ∧ quantile (1 / 20) [3, 1, 2] ≤ 3 ∧
                (3 : ℚ) ≤ quantile (19 / 20) [3, 1, 2]
              then some 7 else none)) ∧
      (∀ r : ℚ, (some 7 : Val) = some r →
        ((vvvhFiltered 0 [3, 1, 2] [some 7, none, some 4]).get? 0 = some (some r) ↔
          ((3 : ℚ) ≠ 0 ∧ quantile (1 / 20) [3, 1, 2] ≤ 3 ∧
            (3 : ℚ) ≤ quantile (19 / 20) [3, 1, 2])))) :=
  ⟨⟨rfl, rfl⟩, vvvh_mask_depends_only_on_vh 0 [3, 1, 2] 0 3 rfl _ (some 7) rfl⟩

lemma whereJJA_years (s : TSeries) :
    (whereJJA s).map (fun tv => tv.1.year) = s.map (fun tv => tv.1.year) := by
  unfold whereJJA
  rw [List.map_map]
  rfl

lemma mem_yearsOf {s : TSeries} {y : ℤ} :
    y ∈ yearsOf s ↔ y ∈ s.map (fun tv => tv.1.year) := by
  unfold yearsOf
  rw [(List.perm_insertionSort _ _).mem_iff, List.mem_dedup]

lemma yearsOf_sorted_lt (s : TSeries) : (yearsOf s).Sorted (· < ·) := by
  apply List.Sorted.lt_of_le (List.sorted_insertionSort _ _)
  exact ((List.perm_insertionSort _ _).nodup_iff).mpr (List.nodup_dedup _)

lemma yearVals_whereJJA_nil (s : TSeries) (y : ℤ)
    (h : ∀ tv ∈ s, tv.1.year = y → isJJA tv.1.month = true → tv.2 = none) :
    yearVals (whereJJA s) y = [] := by
  induction s with
  | nil => rfl
  | cons hd tl ih =>
    have htl : yearVals (whereJJA tl) y = [] :=
      ih fun tv hm => h tv (List.mem_cons_of_mem hd hm)
    unfold yearVals whereJJA obsVals at htl ⊢
    rw [List.map_cons, List.filter_cons]
    by_cases hy : hd.1.year = y
    · rw [if_pos (by simpa using hy)]
      rw [List.map_cons, List.filterMap_cons]
      by_cases hm : isJJA hd.1.month
      · have hnone : hd.2 = none := h hd (List.mem_cons_self hd tl) hy hm
        rw [if_pos hm, hnone]
        exact htl
      · rw [if_neg hm]
        exact htl
    · rw [if_neg (by simpa using hy)]
      exact htl

lemma aggregate_keys (s : TSeries) :
    (aggregate s).map Prod.fst = yearsOf (whereJJA s) := by
  unfold aggregate groupByYearMedian
  rw [List.map_map]
  exact List.map_id _

/-- C3: a year group of the seasonal aggregation whose pixel has no valid
observation inside the season window still appears in the output, carrying
the "no observation" marker (not zero, not an error), and the output
composites are keyed by strictly ascending year. -/
theorem aggregate_empty_group_emitted (s : TSeries) (y : ℤ)
    (hy : y ∈ s.map (fun tv => tv.1.year))
    (hnone : ∀ tv ∈ s, tv.1.year = y → isJJA tv.1.month = true → tv.2 = none) :
    (y, (none : Val)) ∈ aggregate s ∧
    ((aggregate s).map Prod.fst).Sorted (· < ·) := by
  constructor
  · unfold aggregate groupByYearMedian
    apply List.mem_map.mpr
    refine ⟨y, ?_, ?_⟩
    · rw [mem_yearsOf, whereJJA_years]
      exact hy
    · rw [yearVals_whereJJA_nil s y hnone]
      rfl
  · rw [aggregate_keys]
    exact yearsOf_sorted_lt _

/-- Exercises `aggregate_empty_group_emitted`: year 2018 has one in-season
cloudy (masked) acquisition and one out-of-season observation, yet its
composite is emitted as "no observation" after 2017's. -/
theorem aggregate_empty_group_emitted_witness :
    ((2018 : ℤ) ∈ ([({ year := 2017, month := 7 }, some 3),
        ({ year := 2018, month := 7 }, none),
        ({ year := 2018, month := 2 }, some 9)] : TSeries).map (fun tv => tv.1.year) ∧
      (∀ tv ∈ ([({ year := 2017, month := 7 }, some 3),
          ({ year := 2018, month := 7 }, none),
          ({ year := 2018, month := 2 }, some 9)] : TSeries),
        tv.1.year = 2018 → isJJA tv.1.month = true → tv.2 = none)) ∧
    (((2018 : ℤ), (none : Val)) ∈ aggregate
        [({ year := 2017, month := 7 }, some 3),
         ({ year := 2018, month := 7 }, none),
         ({ year := 2018, month := 2 }, some 9)] ∧
      ((aggregate [({ year := 2017, month := 7 }, some 3),
          ({ year := 2018, month := 7 }, none),
          ({ year := 2018, month := 2 }, some 9)]).map Prod.fst).Sorted (· < ·)) :=
  ⟨⟨by decide, by decide⟩,
   aggregate_empty_group_emitted _ 2018 (by decide) (by decide)⟩

end TDC

